import Mathlib

/-!
Shallow embedding of the `rdiffdb` backup/restore orchestrator
(`fabfile.py`, `main.py`, `settings.py`).

External collaborators (the SSH executor, the rdiff-backup engine, the
docker engine, the local filesystem) are modelled as oracles and as an
explicit trace of issued `Effect`s.  Pure command construction is
translated verbatim from the source's f-strings.
-/

namespace RdiffDb

/-- Result of running one remote shell command (fabric's `Result`):
`ok` is `exited == 0`, `output` the captured output. -/
structure RunResult where
  ok : Bool
  output : String
deriving DecidableEq, Repr

/-- The Remote Executor oracle: maps a shell command to its result. -/
abbrev Executor := String → RunResult

/-- The in-container executor oracle (`container.exec_run`):
maps a command to `(exitcode, output)`. -/
abbrev ContainerExec := String → Nat × String

/-- One operation issued to an external collaborator or to the local
filesystem. -/
inductive Effect where
  | remoteRun (host user cmd : String)
  | rdiffMainRun (args : List String)
  | localRmtree (path : String) (ignoreErrors : Bool)
  | localMakedirs (path : String) (existOk : Bool)
  | containerExec (cmd : String)
  | putArchive (dst : String)
  | sleep (secs : Nat)
deriving DecidableEq, Repr

/-- `True` for operations issued to the Remote Executor or the
Incremental Backup Service (the two collaborators the spec's mock
records). -/
def Effect.isCollab : Effect → Bool
  | Effect.remoteRun _ _ _ => true
  | Effect.rdiffMainRun _ => true
  | _ => false

/-- Destructive filesystem target of an effect, when it has one:
`shutil.rmtree` and `os.makedirs` mutate their path argument; an
rdiff-backup `backup` call mutates its destination; a forced
`--restore-as-of=now` call mutates its target. -/
def Effect.mutTarget : Effect → Option String
  | Effect.localRmtree q _ => some q
  | Effect.localMakedirs q _ => some q
  | Effect.rdiffMainRun ["backup", _, dst] => some dst
  | Effect.rdiffMainRun ["--force", "--restore-as-of=now", _, tgt] => some tgt
  | _ => none

/-- Read-only source of an rdiff-backup invocation, when it has one. -/
def Effect.readSource : Effect → Option String
  | Effect.rdiffMainRun ["backup", src, _] => some src
  | Effect.rdiffMainRun ["--force", "--restore-as-of=now", src, _] => some src
  | _ => none

/-- `Paths` (the source's `Paths` NamedTuple): backup-relative path,
local staging path, durable destination, and per-run temp path. -/
structure Paths where
  backup : String
  local_backup : String
  destination : String
  temp : String
deriving DecidableEq, Repr

/-- `Config` (the source's `Config` dataclass): one ConnectionTarget. -/
structure Config where
  user : String
  host : String
  database : String
deriving DecidableEq, Repr

/-- `Config.paths` (the `cached_property`): derived from the config plus
the home directory, today's ISO date and the 10-letter random token.
`temp = /tmp/pg_dump_out/{today}_{rand}`. -/
def Config.paths (cfg : Config) (home today rand : String) : Paths where
  backup := "pg_dump_out"
  local_backup := "/tmp/pg_dump_out"
  destination := home ++ "/databases/" ++ cfg.host ++ "/" ++ cfg.database
  temp := "/tmp/pg_dump_out/" ++ today ++ "_" ++ rand

/-- Wall-clock context of one `Config.paths` computation: the ISO date
(`date.today().isoformat()`), the sub-day time (unused by the code) and
the random token drawn by `random.choice`. -/
structure SessionContext where
  day : String
  seconds : Nat
  rand : String
deriving DecidableEq, Repr

/-- `Config.paths` as a function of the computation's wall-clock
context: the code reads only the date and the random token. -/
def Config.pathsAt (cfg : Config) (home : String) (ctx : SessionContext) : Paths :=
  cfg.paths home ctx.day ctx.rand

/-- Step 1 command of `Config.backup_db`:
`f"mkdir -p {Path('/tmp') / self.paths.backup}"`. -/
def Config.mkdir_cmd (_cfg : Config) (p : Paths) : String :=
  "mkdir -p " ++ ("/tmp/" ++ p.backup)

/-- Step 2 command of `Config.backup_db`:
`f"chown {self.user}:{self.user} {Path('/tmp') / self.paths.backup}"`. -/
def Config.chown_cmd (cfg : Config) (p : Paths) : String :=
  "chown " ++ cfg.user ++ ":" ++ cfg.user ++ " " ++ ("/tmp/" ++ p.backup)

/-- Step 3 command of `Config.backup_db`:
`f"su - {self.user} -c 'pg_dump {args} {self.database}'"` with
`args = "--format=directory --file={temp} --compress=0"` (the insertion
order of the `opts` dict). -/
def Config.dump_cmd (cfg : Config) (p : Paths) : String :=
  "su - " ++ cfg.user ++ " -c \x27pg_dump --format=directory --file=" ++ p.temp
    ++ " --compress=0 " ++ cfg.database ++ "\x27"

/-- `Config.backup_db`: the three (description, command) pairs. -/
def Config.backup_db (cfg : Config) (p : Paths) : List (String × String) :=
  [("Create temp directory", cfg.mkdir_cmd p),
   ("Set user for temp directory", cfg.chown_cmd p),
   ("Run pg_dump on the server", cfg.dump_cmd p)]

/-- Arguments of the rdiff-backup call in `Config.rdiff_backup`:
`["backup", f"root@{host}::{temp}", f"{destination}"]`. -/
def Config.rdiff_args (cfg : Config) (p : Paths) : List String :=
  ["backup", "root@" ++ cfg.host ++ "::" ++ p.temp, p.destination]

/-- Events yielded by `Config.run_backup_db`: the step description,
then (only when `c.run` did not raise) the boolean truthiness of the
fabric result. -/
inductive StepEvent where
  | desc (s : String)
  | outcome (b : Bool)
deriving DecidableEq, Repr

/-- A non-zero remote exit: fabric's `UnexpectedExit`, carrying the
failing command and its captured output. -/
structure Failure where
  cmd : String
  output : String
deriving DecidableEq, Repr

/-- The loop body of `Config.run_backup_db`: for each (description,
command) pair, yield the description, run the command as root over SSH
(fabric raises on non-zero exit, aborting the rest), then yield `True`.
Returns the trace of remote runs, the yielded events, and the failure
(if any). -/
def runSteps (host : String) (ex : Executor) :
    List (String × String) → List Effect × List StepEvent × Option Failure
  | [] => ([], [], none)
  | (d, c) :: rest =>
    if (ex c).ok then
      (Effect.remoteRun host "root" c :: (runSteps host ex rest).1,
       StepEvent.desc d :: StepEvent.outcome true :: (runSteps host ex rest).2.1,
       (runSteps host ex rest).2.2)
    else
      ([Effect.remoteRun host "root" c], [StepEvent.desc d],
       some ⟨c, (ex c).output⟩)

/-- The backup workflow as driven by `main.backup_db`: run the three
remote steps of `Config.run_backup_db`; if none raised, run
`Config.rdiff_backup` (which first ensures the local destination
directory exists, then invokes the rdiff-backup engine).  A raised
`UnexpectedExit` propagates, skipping the rdiff step. -/
def backupWorkflow (cfg : Config) (p : Paths) (ex : Executor) :
    List Effect × Option Failure :=
  match runSteps cfg.host ex (cfg.backup_db p) with
  | (t, _, some fl) => (t, some fl)
  | (t, _, none) =>
      (t ++ [Effect.localMakedirs p.destination true,
             Effect.rdiffMainRun (cfg.rdiff_args p)], none)

/-- One progress entry as the spec's StepResult: a description and an
optional boolean outcome. -/
structure StepResult where
  description : String
  outcome : Option Bool
deriving DecidableEq, Repr

/-- How `main.backup_db`'s progress loop consumes the mixed
string/boolean event stream: a string opens a task, a following
`True` completes it. -/
def toStepResults : List StepEvent → List StepResult
  | [] => []
  | StepEvent.desc d :: StepEvent.outcome b :: rest =>
      ⟨d, some b⟩ :: toStepResults rest
  | StepEvent.desc d :: rest => ⟨d, none⟩ :: toStepResults rest
  | StepEvent.outcome _ :: rest => toStepResults rest

/-- The StepResult sequence observed for one `main.backup_db` run: the
three remote steps (with boolean outcomes), then — when no step raised —
the rdiff-backup task, which carries no boolean outcome. -/
def backupWorkflowResults (cfg : Config) (p : Paths) (ex : Executor) :
    List StepResult :=
  match runSteps cfg.host ex (cfg.backup_db p) with
  | (_, e, some _) => toStepResults e
  | (_, e, none) =>
      toStepResults e ++ [⟨"Rdiff-backup to " ++ p.destination, none⟩]

/-- `Path(s).parent`: everything before the last slash. -/
def parentOf (s : String) : String :=
  String.mk (((s.data.reverse.dropWhile (fun c => c != '/')).drop 1).reverse)

/-- `Config.restore_as_of_now`: clear the local staging directory
(ignoring absence), ensure its parent exists, run a forced
`--restore-as-of=now` from the durable destination into the staging
directory, and return the staging directory. -/
def Config.restore_as_of_now (_cfg : Config) (p : Paths) : List Effect × String :=
  ([Effect.localRmtree p.local_backup true,
    Effect.localMakedirs (parentOf p.local_backup) true,
    Effect.rdiffMainRun
      ["--force", "--restore-as-of=now", p.destination, p.local_backup]],
   p.local_backup)

/-- `PgContainerSettings` (the source's dataclass, with its defaults). -/
structure PgContainerSettings where
  image_name : String := "postgis/postgis:latest"
  container_name : String := "my-db"
  password : String := "post1234"
  pg_port : Nat := 49158
  database : String := "postgres"
  user : String := "postgres"
  host : String := "localhost"
deriving DecidableEq, Repr

/-- The eight auxiliary-role commands of `_restore_cmds` (the branch
gated on `self.database == 'partisipa_db'`), each against
`preamble_db = f"psql --user {user} -d {database} -c"`. -/
def PgContainerSettings.aux_role_cmds (s : PgContainerSettings) : List String :=
  [("psql --user " ++ s.user ++ " -d " ++ s.database ++ " -c")
     ++ " \"DROP ROLE IF EXISTS metabase_group\" ",
   ("psql --user " ++ s.user ++ " -d " ++ s.database ++ " -c")
     ++ " \"DROP ROLE IF EXISTS metabase\" ",
   ("psql --user " ++ s.user ++ " -d " ++ s.database ++ " -c")
     ++ " \"DROP ROLE IF EXISTS partisipa\" ",
   ("psql --user " ++ s.user ++ " -d " ++ s.database ++ " -c")
     ++ " \"DROP ROLE IF EXISTS iampartisipa\" ",
   ("psql --user " ++ s.user ++ " -d " ++ s.database ++ " -c")
     ++ " \"CREATE ROLE metabase_group\" ",
   ("psql --user " ++ s.user ++ " -d " ++ s.database ++ " -c")
     ++ " \"CREATE ROLE metabase\" ",
   ("psql --user " ++ s.user ++ " -d " ++ s.database ++ " -c")
     ++ " \"CREATE ROLE iampartisipa\" ",
   ("psql --user " ++ s.user ++ " -d " ++ s.database ++ " -c")
     ++ " \"CREATE ROLE partisipa\" "]

/-- The `DROP DATABASE` command of `_restore_cmds`, against
`preamble = f"psql --user {user} -d postgres -c"`. -/
def PgContainerSettings.drop_db_cmd (s : PgContainerSettings) : String :=
  ("psql --user " ++ s.user ++ " -d postgres -c")
    ++ " \"DROP DATABASE " ++ s.database ++ "\" "

/-- The `CREATE DATABASE` command of `_restore_cmds`. -/
def PgContainerSettings.create_db_cmd (s : PgContainerSettings) : String :=
  ("psql --user " ++ s.user ++ " -d postgres -c")
    ++ " \"CREATE DATABASE " ++ s.database ++ "\" "

/-- The final `pg_restore` command of `_restore_cmds`. -/
def PgContainerSettings.pg_restore_cmd (s : PgContainerSettings) : String :=
  "pg_restore --user " ++ s.user ++ " /source/pg_dump_out -d " ++ s.database

/-- `PgContainerSettings._restore_cmds`: drop database, create
database, the auxiliary-role block only when the database name is
exactly `partisipa_db`, then `pg_restore`. -/
def PgContainerSettings.restore_cmds (s : PgContainerSettings) : List String :=
  [s.drop_db_cmd, s.create_db_cmd]
    ++ (if s.database = "partisipa_db" then s.aux_role_cmds else [])
    ++ [s.pg_restore_cmd]

/-- The loop of `PgContainerSettings.restore`: execute commands in
order; at the first non-zero exit code, print that command's output and
break.  Returns the executed commands and the printed output (if any). -/
def runContainerCmds (cexec : ContainerExec) :
    List String → List String × Option String
  | [] => ([], none)
  | c :: rest =>
    if (cexec c).1 ≠ 0 then ([c], some (cexec c).2)
    else (c :: (runContainerCmds cexec rest).1, (runContainerCmds cexec rest).2)

/-- `PgContainerSettings.restore`: run `_restore_cmds` in the container,
stopping after the first failing command.  The function itself raises
nothing and returns no failure value. -/
def PgContainerSettings.restore (s : PgContainerSettings) (cexec : ContainerExec) :
    List String × Option String :=
  runContainerCmds cexec s.restore_cmds

/-- The host registry of `settings.py`. -/
def dird_config : Config :=
  ⟨"dird", "dird-staging.catalpa.build", "dird_db"⟩

/-- The `partisipa` host entry of `settings.py`. -/
def partisipa_config : Config :=
  ⟨"partisipa", "partisipa-staging.catalpa.build", "partisipa_db"⟩

/-- The `partisipa_metabase` host entry of `settings.py`. -/
def partisipa_metabase_config : Config :=
  ⟨"partisipa", "partisipa-staging.catalpa.build", "partisipa_metabase_db"⟩

/-- `hosts.get` over the registry of `settings.py`. -/
def hosts_get (name : String) : Option Config :=
  if name = "dird" then some dird_config
  else if name = "partisipa" then some partisipa_config
  else if name = "partisipa_metabase" then some partisipa_metabase_config
  else none

/-- The `partisipa` container profile of `settings.py`. -/
def partisipa_container : PgContainerSettings :=
  { container_name := "partisipa_db", user := "partisipa",
    database := "partisipa_db" }

/-- The `partisipa_metabase` container profile of `settings.py`. -/
def partisipa_metabase_container : PgContainerSettings :=
  { container_name := "partisipa_metabase_db", user := "partisipa_metabase",
    database := "partisipa_metabase_db", pg_port := 49159 }

/-- `containersettings.get` over the registry of `settings.py`. -/
def containersettings_get (name : String) : Option PgContainerSettings :=
  if name = "partisipa" then some partisipa_container
  else if name = "partisipa_metabase" then some partisipa_metabase_container
  else none

/-- A Python exception escaping a CLI command. -/
inductive PyError where
  | keyError (msg : String)
  | attributeError (msg : String)
  | unexpectedExit (cmd output : String)
deriving DecidableEq, Repr

/-- `main.backup_db`: look the host up, then test `if not host` — the
truthiness of the CLI *argument string*, not of the lookup result — and
raise `KeyError("Host not found")` only when the argument is empty;
otherwise call `h.run_backup_db()` (an `AttributeError` on `None` when
the lookup failed) and then `h.rdiff_backup()`. -/
def cli_backup_db (host home today rand : String) (ex : Executor) :
    List Effect × Option PyError :=
  if host = "" then ([], some (PyError.keyError "Host not found"))
  else
    match hosts_get host with
    | none =>
        ([], some (PyError.attributeError
          "NoneType object has no attribute run_backup_db"))
    | some cfg =>
        match backupWorkflow cfg (cfg.paths home today rand) ex with
        | (tr, some fl) => (tr, some (PyError.unexpectedExit fl.cmd fl.output))
        | (tr, none) => (tr, none)

/-- `main.list_backups`: `hosts.get` with no check at all, then
`h.list_backups()` which delegates to the rdiff-backup engine's
`list increments` on the destination. -/
def cli_list_backups (host home today rand : String) :
    List Effect × Option PyError :=
  match hosts_get host with
  | none =>
      ([], some (PyError.attributeError
        "NoneType object has no attribute list_backups"))
  | some cfg =>
      ([Effect.rdiffMainRun
          ["list", "increments", (cfg.paths home today rand).destination]],
       none)

/-- The outcome of one `main.build_container` run (with both configs
resolved): the issued effects, the value of `containerconfig.restore()`,
and the three progress-task completion flags, each set unconditionally
right after its step returns. -/
structure BuildContainerRun where
  effects : List Effect
  restoreResult : List String × Option String
  restoreTaskDone : Bool
  copyTaskDone : Bool
  containerRestoreTaskDone : Bool
deriving DecidableEq, Repr

/-- The body of `main.build_container`: restore-as-of-now, copy the
staging directory into the container (`mkdir -p /source` in the
container — `Path("/source/")` renders without the trailing slash —
then `put_archive`), sleep 5 seconds, then `containerconfig.restore()`;
every progress task is marked completed unconditionally after its call
returns. -/
def cli_build_container (cfg : Config) (s : PgContainerSettings) (p : Paths)
    (cexec : ContainerExec) : BuildContainerRun :=
  let r := s.restore cexec
  { effects :=
      (cfg.restore_as_of_now p).1
        ++ [Effect.containerExec "mkdir -p /source", Effect.putArchive "/source"]
        ++ [Effect.sleep 5]
        ++ r.1.map Effect.containerExec
    restoreResult := r
    restoreTaskDone := true
    copyTaskDone := true
    containerRestoreTaskDone := true }

/-- `main.build_container` at CLI level: `hosts.get` and
`containersettings.get` with no lookup check.  The progress-task
descriptions are evaluated before any step runs, so a host absent from
`hosts` dies at `config.paths` in the first description and a host
present in `hosts` but absent from `containersettings` (such as `dird`)
dies at `containerconfig.container_name` in the second description —
in both cases an AttributeError on `None` before any effect is
issued. -/
def cli_build_container_cli (host home today rand : String)
    (cexec : ContainerExec) : List Effect × Option PyError :=
  match hosts_get host with
  | none =>
      ([], some (PyError.attributeError "NoneType object has no attribute paths"))
  | some cfg =>
      let p := cfg.paths home today rand
      match containersettings_get host with
      | none =>
          ([], some (PyError.attributeError
            "NoneType object has no attribute container_name"))
      | some s => ((cli_build_container cfg s p cexec).effects, none)

/-- A mocked Remote Executor on which every command succeeds. -/
def exAllOk : Executor := fun _ => ⟨true, ""⟩

/-- A mocked Remote Executor on which every command fails. -/
def exAllFail : Executor := fun _ => ⟨false, "mkdir failed"⟩

/-- A concrete PathSet of the `partisipa` target, computed on
2026-10-12 with random token `abcdefghij`. -/
def pX : Paths := partisipa_config.paths "/root" "2026-10-12" "abcdefghij"

/-- A mocked Remote Executor failing exactly on the chown step. -/
def exFailChown : Executor := fun c =>
  if c = partisipa_config.chown_cmd pX then ⟨false, "chown failed"⟩ else ⟨true, ""⟩

/-- A mocked Remote Executor failing exactly on the pg_dump step. -/
def exFailDump : Executor := fun c =>
  if c = partisipa_config.dump_cmd pX then ⟨false, "dump failed"⟩ else ⟨true, ""⟩

/-- A mocked in-container executor failing exactly on the
`CREATE DATABASE` command. -/
def cexecFailCreate : ContainerExec := fun c =>
  if c = partisipa_container.create_db_cmd then (1, "create failed") else (0, "")

/-- Dropping a whole block every element of which satisfies the
predicate continues into the rest. -/
theorem dropWhile_append_all (p : Char → Bool) (l₁ l₂ : List Char)
    (h : ∀ c ∈ l₁, p c = true) :
    (l₁ ++ l₂).dropWhile p = l₂.dropWhile p := by
  induction l₁ with
  | nil => rfl
  | cons a l ih =>
      rw [List.cons_append, List.dropWhile_cons,
        if_pos (h a (List.mem_cons_self a l))]
      exact ih (fun c hc => h c (List.mem_cons_of_mem a hc))

/-- The parent of a freshly minted temp path (date and token contain no
slash) is the fixed remote dump directory. -/
theorem parentOf_temp (today rand : String)
    (hd : '/' ∉ today.data) (hr : '/' ∉ rand.data) :
    parentOf ("/tmp/pg_dump_out/" ++ today ++ "_" ++ rand) = "/tmp/pg_dump_out" := by
  have hrand : ∀ c ∈ rand.data.reverse, (c != '/') = true := fun c hc =>
    bne_iff_ne.mpr (fun h => hr (h ▸ List.mem_reverse.mp hc))
  have htoday : ∀ c ∈ today.data.reverse, (c != '/') = true := fun c hc =>
    bne_iff_ne.mpr (fun h => hd (h ▸ List.mem_reverse.mp hc))
  have hus : ∀ c ∈ ("_" : String).data.reverse, (c != '/') = true := by decide
  unfold parentOf
  rw [String.data_append, String.data_append, String.data_append,
    List.reverse_append, List.reverse_append, List.reverse_append,
    dropWhile_append_all _ _ _ hrand, dropWhile_append_all _ _ _ hus,
    dropWhile_append_all _ _ _ htoday]
  decide

/-- Every destination path contains the letter `b` (from its fixed
`databases` component). -/
theorem paths_destination_hasB (cfg : Config) (home today rand : String) :
    'b' ∈ ((cfg.paths home today rand).destination).data := by
  show 'b' ∈ (home ++ "/databases/" ++ cfg.host ++ "/" ++ cfg.database).data
  rw [String.data_append, String.data_append, String.data_append,
    String.data_append]
  exact List.mem_append_left _ (List.mem_append_left _
    (List.mem_append_left _ (List.mem_append_right _ (by decide))))

/-- The destination path differs from any string not containing `b`. -/
theorem destination_ne_of_noB (cfg : Config) (home today rand : String)
    (other : String) (hb : 'b' ∉ other.data) :
    (cfg.paths home today rand).destination ≠ other := fun h =>
  hb (h ▸ paths_destination_hasB cfg home today rand)

/-- C3: The container rehydration command sequence contains the
auxiliary-role DROP ROLE / CREATE ROLE commands exactly when the
profile's database name is `partisipa_db`: for that name the sequence
is drop database, create database, the eight role commands, then
`pg_restore`; for every other database name it is exactly drop
database, create database, `pg_restore`.  On the registry profiles,
every auxiliary-role command is a member of the `partisipa` profile's
sequence and none is a member of the `partisipa_metabase` profile's
sequence. -/
theorem C3_restore_cmds_aux_roles (s : PgContainerSettings) :
    (s.database = "partisipa_db" →
       s.restore_cmds =
         [s.drop_db_cmd, s.create_db_cmd] ++ s.aux_role_cmds
           ++ [s.pg_restore_cmd]) ∧
    (s.database ≠ "partisipa_db" →
       s.restore_cmds = [s.drop_db_cmd, s.create_db_cmd, s.pg_restore_cmd]) ∧
    (∀ c ∈ partisipa_container.aux_role_cmds,
       c ∈ partisipa_container.restore_cmds) ∧
    (∀ c ∈ partisipa_metabase_container.aux_role_cmds,
       c ∉ partisipa_metabase_container.restore_cmds) := by
  refine ⟨fun h => ?_, fun h => ?_, by decide, by decide⟩
  · simp [PgContainerSettings.restore_cmds, h]
  · simp [PgContainerSettings.restore_cmds, h]

/-- Witness for C3 on the two registry container profiles. -/
theorem C3_restore_cmds_aux_roles_witness :
    partisipa_container.restore_cmds =
      [partisipa_container.drop_db_cmd, partisipa_container.create_db_cmd]
        ++ partisipa_container.aux_role_cmds
        ++ [partisipa_container.pg_restore_cmd] ∧
    partisipa_metabase_container.restore_cmds =
      [partisipa_metabase_container.drop_db_cmd,
       partisipa_metabase_container.create_db_cmd,
       partisipa_metabase_container.pg_restore_cmd] ∧
    partisipa_container.aux_role_cmds.get ⟨0, by decide⟩ ∈
      partisipa_container.restore_cmds :=
  ⟨(C3_restore_cmds_aux_roles partisipa_container).1 rfl,
   (C3_restore_cmds_aux_roles partisipa_metabase_container).2.1 (by decide),
   (C3_restore_cmds_aux_roles partisipa_container).2.2.1 _ (by decide)⟩

/-- C4: restore-as-of-now issues, in order: a forceful removal of
localBackupPath (with `ignore_errors`, so absence is fine), creation of
its parent directory (with `exist_ok`), and exactly one forced
`--restore-as-of=now` restore with source destinationPath and target
localBackupPath; it returns localBackupPath. -/
theorem C4_restore_as_of_now_sequence (cfg : Config)
    (home today rand : String) (p : Paths)
    (hp : p = cfg.paths home today rand) :
    cfg.restore_as_of_now p =
      ([Effect.localRmtree p.local_backup true,
        Effect.localMakedirs (parentOf p.local_backup) true,
        Effect.rdiffMainRun
          ["--force", "--restore-as-of=now", p.destination, p.local_backup]],
       p.local_backup) ∧
    p.local_backup = "/tmp/pg_dump_out" ∧
    parentOf p.local_backup = "/tmp" ∧
    p.destination = home ++ "/databases/" ++ cfg.host ++ "/" ++ cfg.database := by
  subst hp
  exact ⟨rfl, rfl, (by decide : parentOf "/tmp/pg_dump_out" = "/tmp"), rfl⟩

/-- Witness for C4 on the `partisipa` target. -/
theorem C4_restore_as_of_now_sequence_witness :
    partisipa_config.restore_as_of_now pX =
      ([Effect.localRmtree "/tmp/pg_dump_out" true,
        Effect.localMakedirs "/tmp" true,
        Effect.rdiffMainRun ["--force", "--restore-as-of=now",
          "/root/databases/partisipa-staging.catalpa.build/partisipa_db",
          "/tmp/pg_dump_out"]],
       "/tmp/pg_dump_out") :=
  ((C4_restore_as_of_now_sequence partisipa_config "/root" "2026-10-12"
      "abcdefghij" pX rfl).1).trans (by decide)

/-- C10: `PgContainerSettings.restore` returns normally and carries no
error value even when an in-container command exits non-zero (the
failure is only printed), so `main.build_container` marks the final
progress task completed unconditionally: for every executor the flag is
true, and for an always-failing executor the restore records a failure
while the task is still reported completed. -/
theorem C10_container_restore_always_completes (cfg : Config)
    (s : PgContainerSettings) (p : Paths) (cexec : ContainerExec) :
    (cli_build_container cfg s p cexec).containerRestoreTaskDone = true ∧
    (cli_build_container cfg s p cexec).restoreResult = s.restore cexec ∧
    (partisipa_container.restore (fun _ => (1, "pg_restore failed"))).2 =
      some "pg_restore failed" ∧
    (cli_build_container partisipa_config partisipa_container pX
        (fun _ => (1, "pg_restore failed"))).containerRestoreTaskDone = true :=
  ⟨rfl, rfl, by decide, rfl⟩

/-- C1: with every remote command succeeding, the backup workflow's
operations on the Remote Executor and the Incremental Backup Service
are exactly, in order: the remote mkdir of the temp directory's parent,
the remote chown of that directory to the remote user, the remote
directory-format compression-0 pg_dump to PathSet.temp run as the
remote user via `su`, and the rdiff-backup transfer from
`root@host::temp` to the local destination; the full trace adds only
the local `os.makedirs(destination)` that immediately precedes the
transfer. -/
theorem C1_backup_sequence (cfg : Config) (home today rand : String)
    (ex : Executor) (p : Paths) (hp : p = cfg.paths home today rand)
    (hok : ∀ c, (ex c).ok = true)
    (hd : '/' ∉ today.data) (hr : '/' ∉ rand.data) :
    (backupWorkflow cfg p ex).1.filter Effect.isCollab =
      [Effect.remoteRun cfg.host "root" "mkdir -p /tmp/pg_dump_out",
       Effect.remoteRun cfg.host "root"
         ("chown " ++ cfg.user ++ ":" ++ cfg.user ++ " /tmp/pg_dump_out"),
       Effect.remoteRun cfg.host "root"
         ("su - " ++ cfg.user ++ " -c \x27pg_dump --format=directory --file="
           ++ p.temp ++ " --compress=0 " ++ cfg.database ++ "\x27"),
       Effect.rdiffMainRun
         ["backup", "root@" ++ cfg.host ++ "::" ++ p.temp, p.destination]] ∧
    (backupWorkflow cfg p ex).1 =
      [Effect.remoteRun cfg.host "root" "mkdir -p /tmp/pg_dump_out",
       Effect.remoteRun cfg.host "root"
         ("chown " ++ cfg.user ++ ":" ++ cfg.user ++ " /tmp/pg_dump_out"),
       Effect.remoteRun cfg.host "root"
         ("su - " ++ cfg.user ++ " -c \x27pg_dump --format=directory --file="
           ++ p.temp ++ " --compress=0 " ++ cfg.database ++ "\x27"),
       Effect.localMakedirs p.destination true,
       Effect.rdiffMainRun
         ["backup", "root@" ++ cfg.host ++ "::" ++ p.temp, p.destination]] ∧
    parentOf p.temp = "/tmp/pg_dump_out" := by
  subst hp
  refine ⟨?_, ?_, parentOf_temp today rand hd hr⟩ <;>
    simp [backupWorkflow, runSteps, Config.backup_db, Config.mkdir_cmd,
      Config.chown_cmd, Config.dump_cmd, Config.rdiff_args, Config.paths,
      Effect.isCollab, hok, String.append_assoc]

/-- Witness for C1: the dird target with an all-succeeding mock. -/
theorem C1_backup_sequence_witness :
    (backupWorkflow partisipa_config pX exAllOk).1.filter Effect.isCollab =
      [Effect.remoteRun "partisipa-staging.catalpa.build" "root"
         "mkdir -p /tmp/pg_dump_out",
       Effect.remoteRun "partisipa-staging.catalpa.build" "root"
         "chown partisipa:partisipa /tmp/pg_dump_out",
       Effect.remoteRun "partisipa-staging.catalpa.build" "root"
         "su - partisipa -c \x27pg_dump --format=directory --file=/tmp/pg_dump_out/2026-10-12_abcdefghij --compress=0 partisipa_db\x27",
       Effect.rdiffMainRun ["backup",
         "root@partisipa-staging.catalpa.build::/tmp/pg_dump_out/2026-10-12_abcdefghij",
         "/root/databases/partisipa-staging.catalpa.build/partisipa_db"]] :=
  ((C1_backup_sequence partisipa_config "/root" "2026-10-12" "abcdefghij"
      exAllOk pX rfl (fun _ => rfl) (by decide) (by decide)).1).trans (by decide)

/-- C2: a failing remote step aborts the backup workflow at once: the
trace stops at the failing command, no later remote step and no rdiff
transfer is issued, and the surfaced failure carries that command's
captured output — stated for a failure at each of the three remote
steps. -/
theorem C2_backup_fail_fast (cfg : Config) (p : Paths) (ex : Executor) :
    ((ex (cfg.mkdir_cmd p)).ok = false →
       backupWorkflow cfg p ex =
         ([Effect.remoteRun cfg.host "root" (cfg.mkdir_cmd p)],
          some ⟨cfg.mkdir_cmd p, (ex (cfg.mkdir_cmd p)).output⟩)) ∧
    ((ex (cfg.mkdir_cmd p)).ok = true → (ex (cfg.chown_cmd p)).ok = false →
       backupWorkflow cfg p ex =
         ([Effect.remoteRun cfg.host "root" (cfg.mkdir_cmd p),
           Effect.remoteRun cfg.host "root" (cfg.chown_cmd p)],
          some ⟨cfg.chown_cmd p, (ex (cfg.chown_cmd p)).output⟩)) ∧
    ((ex (cfg.mkdir_cmd p)).ok = true → (ex (cfg.chown_cmd p)).ok = true →
       (ex (cfg.dump_cmd p)).ok = false →
       backupWorkflow cfg p ex =
         ([Effect.remoteRun cfg.host "root" (cfg.mkdir_cmd p),
           Effect.remoteRun cfg.host "root" (cfg.chown_cmd p),
           Effect.remoteRun cfg.host "root" (cfg.dump_cmd p)],
          some ⟨cfg.dump_cmd p, (ex (cfg.dump_cmd p)).output⟩)) := by
  refine ⟨fun h1 => ?_, fun h1 h2 => ?_, fun h1 h2 h3 => ?_⟩
  · simp [backupWorkflow, runSteps, Config.backup_db, h1]
  · simp [backupWorkflow, runSteps, Config.backup_db, h1, h2]
  · simp [backupWorkflow, runSteps, Config.backup_db, h1, h2, h3]

/-- Witness for C2: mocks failing at step 1, at step 2, and at step 3. -/
theorem C2_backup_fail_fast_witness :
    backupWorkflow partisipa_config pX exAllFail =
      ([Effect.remoteRun partisipa_config.host "root"
          (partisipa_config.mkdir_cmd pX)],
       some ⟨partisipa_config.mkdir_cmd pX, "mkdir failed"⟩) ∧
    backupWorkflow partisipa_config pX exFailChown =
      ([Effect.remoteRun partisipa_config.host "root"
          (partisipa_config.mkdir_cmd pX),
        Effect.remoteRun partisipa_config.host "root"
          (partisipa_config.chown_cmd pX)],
       some ⟨partisipa_config.chown_cmd pX, "chown failed"⟩) ∧
    backupWorkflow partisipa_config pX exFailDump =
      ([Effect.remoteRun partisipa_config.host "root"
          (partisipa_config.mkdir_cmd pX),
        Effect.remoteRun partisipa_config.host "root"
          (partisipa_config.chown_cmd pX),
        Effect.remoteRun partisipa_config.host "root"
          (partisipa_config.dump_cmd pX)],
       some ⟨partisipa_config.dump_cmd pX, "dump failed"⟩) :=
  ⟨((C2_backup_fail_fast partisipa_config pX exAllFail).1 rfl).trans (by decide),
   ((C2_backup_fail_fast partisipa_config pX exFailChown).2.1
      (by decide) (by decide)).trans (by decide),
   ((C2_backup_fail_fast partisipa_config pX exFailDump).2.2
      (by decide) (by decide) (by decide)).trans (by decide)⟩

/-- C7: for the registry host `dird`, the backup workflow with an
all-succeeding mock yields exactly four StepResults: the three remote
steps each with a boolean outcome, then the rdiff-backup step with no
outcome. -/
theorem C7_dird_backup_results (home today rand : String) (ex : Executor)
    (hok : ∀ c, (ex c).ok = true) (cfg : Config)
    (hc : hosts_get "dird" = some cfg) (p : Paths)
    (hp : p = cfg.paths home today rand) :
    backupWorkflowResults cfg p ex =
      [⟨"Create temp directory", some true⟩,
       ⟨"Set user for temp directory", some true⟩,
       ⟨"Run pg_dump on the server", some true⟩,
       ⟨"Rdiff-backup to " ++ p.destination, none⟩] ∧
    (backupWorkflowResults cfg p ex).length = 4 ∧
    cfg = dird_config := by
  have hcfg : cfg = dird_config := by
    simpa [hosts_get] using hc.symm
  subst hp
  subst hcfg
  have h1 : backupWorkflowResults dird_config
      (dird_config.paths home today rand) ex =
      [⟨"Create temp directory", some true⟩,
       ⟨"Set user for temp directory", some true⟩,
       ⟨"Run pg_dump on the server", some true⟩,
       ⟨"Rdiff-backup to " ++ (dird_config.paths home today rand).destination,
        none⟩] := by
    simp [backupWorkflowResults, runSteps, Config.backup_db, hok, toStepResults]
  exact ⟨h1, by rw [h1]; rfl, rfl⟩

/-- Witness for C7 with the dird registry entry and an all-ok mock. -/
theorem C7_dird_backup_results_witness :
    backupWorkflowResults dird_config
        (dird_config.paths "/root" "2026-10-12" "abcdefghij") exAllOk =
      [⟨"Create temp directory", some true⟩,
       ⟨"Set user for temp directory", some true⟩,
       ⟨"Run pg_dump on the server", some true⟩,
       ⟨"Rdiff-backup to /root/databases/dird-staging.catalpa.build/dird_db",
        none⟩] :=
  ((C7_dird_backup_results "/root" "2026-10-12" "abcdefghij" exAllOk
      (fun _ => rfl) dird_config (by decide) _ rfl).1).trans (by decide)

/-- C5: restore-as-of-now never mutates destinationPath: every
destructive operation in its trace targets only localBackupPath or its
parent, none targets destinationPath, and destinationPath appears only
as the read-only source of the restore call. -/
theorem C5_restore_never_mutates_destination (cfg : Config)
    (home today rand : String) (p : Paths)
    (hp : p = cfg.paths home today rand) :
    (∀ e ∈ (cfg.restore_as_of_now p).1, ∀ t, e.mutTarget = some t →
       t = p.local_backup ∨ t = parentOf p.local_backup) ∧
    (∀ e ∈ (cfg.restore_as_of_now p).1, e.mutTarget ≠ some p.destination) ∧
    (∀ e ∈ (cfg.restore_as_of_now p).1, ∀ src, e.readSource = some src →
       src = p.destination) := by
  subst hp
  refine ⟨?_, ?_, ?_⟩
  · intro e he t ht
    simp [Config.restore_as_of_now] at he
    rcases he with rfl | rfl | rfl <;> simp [Effect.mutTarget] at ht
    · exact Or.inl ht.symm
    · exact Or.inr ht.symm
    · exact Or.inl ht.symm
  · intro e he ht
    simp [Config.restore_as_of_now] at he
    rcases he with rfl | rfl | rfl <;> simp [Effect.mutTarget] at ht
    · exact destination_ne_of_noB cfg home today rand "/tmp/pg_dump_out"
        (by decide) ht.symm
    · exact destination_ne_of_noB cfg home today rand
        (parentOf "/tmp/pg_dump_out") (by decide) ht.symm
    · exact destination_ne_of_noB cfg home today rand "/tmp/pg_dump_out"
        (by decide) ht.symm
  · intro e he src hsrc
    simp [Config.restore_as_of_now] at he
    rcases he with rfl | rfl | rfl <;> simp [Effect.readSource] at hsrc
    exact hsrc.symm

/-- Witness for C5: the rmtree step's target is the local backup path. -/
theorem C5_restore_never_mutates_destination_witness :
    "/tmp/pg_dump_out" = pX.local_backup ∨
      "/tmp/pg_dump_out" = parentOf pX.local_backup :=
  (C5_restore_never_mutates_destination partisipa_config "/root" "2026-10-12"
      "abcdefghij" pX rfl).1
    (Effect.localRmtree pX.local_backup true) (by decide)
    "/tmp/pg_dump_out" (by decide)

/-- The container restore loop stops right after the first command whose
exit code is non-zero: exactly the first `k + 1` commands run and the
failing command's output is printed. -/
theorem runContainerCmds_fail_at (cexec : ContainerExec) :
    ∀ (l : List String) (k : Nat) (hk : k < l.length),
      (∀ j (hj : j < k), (cexec (l.get ⟨j, hj.trans hk⟩)).1 = 0) →
      (cexec (l.get ⟨k, hk⟩)).1 ≠ 0 →
      runContainerCmds cexec l =
        (l.take (k + 1), some (cexec (l.get ⟨k, hk⟩)).2) := by
  intro l
  induction l with
  | nil => intro k hk; exact absurd hk (by simp)
  | cons c rest ih =>
      intro k hk hpre hfail
      cases k with
      | zero =>
          simp only [List.get] at hfail ⊢
          simp [runContainerCmds, hfail]
      | succ k' =>
          have h0 : (cexec c).1 = 0 := by
            simpa using hpre 0 (Nat.succ_pos k')
          have hk' : k' < rest.length := Nat.lt_of_succ_lt_succ hk
          have hpre' : ∀ j (hj : j < k'),
              (cexec (rest.get ⟨j, hj.trans hk'⟩)).1 = 0 := by
            intro j hj
            simpa using hpre (j + 1) (Nat.succ_lt_succ hj)
          have hfail' : (cexec (rest.get ⟨k', hk'⟩)).1 ≠ 0 := by
            simpa using hfail
          have hrec := ih k' hk' hpre' hfail'
          simp [runContainerCmds, h0, hrec]

/-- C8: during container rehydration every command's exit code is
checked; at the first non-zero exit the remaining commands are
abandoned (exactly the first `k + 1` commands were executed) and that
failing command's output is the one surfaced. -/
theorem C8_container_restore_fail_fast (s : PgContainerSettings)
    (cexec : ContainerExec) (k : Nat) (hk : k < s.restore_cmds.length)
    (hpre : ∀ j (hj : j < k),
      (cexec (s.restore_cmds.get ⟨j, hj.trans hk⟩)).1 = 0)
    (hfail : (cexec (s.restore_cmds.get ⟨k, hk⟩)).1 ≠ 0) :
    s.restore cexec =
      (s.restore_cmds.take (k + 1),
       some (cexec (s.restore_cmds.get ⟨k, hk⟩)).2) :=
  runContainerCmds_fail_at cexec s.restore_cmds k hk hpre hfail

/-- Witness for C8: the `CREATE DATABASE` command (index 1) fails on the
`partisipa` profile; the drop succeeded and only two commands ran. -/
theorem C8_container_restore_fail_fast_witness :
    partisipa_container.restore cexecFailCreate =
      ([partisipa_container.drop_db_cmd, partisipa_container.create_db_cmd],
       some "create failed") :=
  (C8_container_restore_fail_fast partisipa_container cexecFailCreate 1
      (by decide)
      (by
        intro j hj
        have hj0 : j = 0 := Nat.lt_one_iff.mp hj
        subst hj0
        exact (by decide :
          (cexecFailCreate partisipa_container.drop_db_cmd).1 = 0))
      (by decide)).trans (by decide)

/-- C9 counterexample: two PathSet computations at different times (one
hour apart on the same day) that draw the same random token produce the
same temporaryRemotePath, refuting "never". -/
theorem C9_same_temp_at_different_times :
    (⟨"2026-10-12", 0, "aaaaaaaaaa"⟩ : SessionContext) ≠
      (⟨"2026-10-12", 3600, "aaaaaaaaaa"⟩ : SessionContext) ∧
    (partisipa_config.pathsAt "/root"
        ⟨"2026-10-12", 0, "aaaaaaaaaa"⟩).temp =
      (partisipa_config.pathsAt "/root"
        ⟨"2026-10-12", 3600, "aaaaaaaaaa"⟩).temp :=
  ⟨by decide, rfl⟩

/-- C9 amended: the temp path is `/tmp/pg_dump_out/{date}_{token}`, and
two PathSet computations share a temporaryRemotePath iff both the ISO
date and the random token coincide (dates being 10 characters);
moreover both the pg_dump command and the rdiff-backup source of a run
are built from the one temp value of that run's PathSet. -/
theorem C9_temp_unique_iff_date_and_token (cfg : Config)
    (home d1 r1 d2 r2 : String)
    (hd1 : d1.length = 10) (hd2 : d2.length = 10) :
    ((cfg.paths home d1 r1).temp = (cfg.paths home d2 r2).temp ↔
       (d1 = d2 ∧ r1 = r2)) ∧
    (cfg.paths home d1 r1).temp = "/tmp/pg_dump_out/" ++ d1 ++ "_" ++ r1 ∧
    cfg.dump_cmd (cfg.paths home d1 r1) =
      "su - " ++ cfg.user ++ " -c \x27pg_dump --format=directory --file="
        ++ (cfg.paths home d1 r1).temp ++ " --compress=0 "
        ++ cfg.database ++ "\x27" ∧
    cfg.rdiff_args (cfg.paths home d1 r1) =
      ["backup", "root@" ++ cfg.host ++ "::" ++ (cfg.paths home d1 r1).temp,
       (cfg.paths home d1 r1).destination] := by
  refine ⟨⟨fun h => ?_, fun h => by rw [h.1, h.2]⟩, rfl, rfl, rfl⟩
  have hlen1 : d1.data.length = 10 := hd1
  have hlen2 : d2.data.length = 10 := hd2
  have hdata := congrArg String.data h
  simp only [Config.paths] at hdata
  rw [String.data_append, String.data_append, String.data_append,
    String.data_append, String.data_append, String.data_append] at hdata
  have houter := List.append_inj hdata
    (by simp [List.length_append, hlen1, hlen2])
  have hmid := List.append_inj houter.1
    (by simp [List.length_append, hlen1, hlen2])
  have hinner := List.append_inj hmid.1 rfl
  exact ⟨String.ext hinner.2, String.ext houter.2⟩

/-- Witness for C9's amended statement: different dates, same token. -/
theorem C9_temp_unique_iff_date_and_token_witness :
    ((partisipa_config.paths "/root" "2026-10-12" "aaaaaaaaaa").temp =
        (partisipa_config.paths "/root" "2026-10-13" "aaaaaaaaaa").temp ↔
      ("2026-10-12" = "2026-10-13" ∧
        ("aaaaaaaaaa" : String) = "aaaaaaaaaa")) :=
  (C9_temp_unique_iff_date_and_token partisipa_config "/root" "2026-10-12"
      "aaaaaaaaaa" "2026-10-13" "aaaaaaaaaa" (by decide) (by decide)).1

/-- C6 evaluated at failing inputs: an unknown non-empty host makes
`backup-db` die with an AttributeError on `None` — not with the
`KeyError("Host not found")` lookup error, which only the empty-string
argument can trigger, because the guard tests `if not host` on the CLI
argument instead of the lookup result — and `build-container` for host
`dird` (present in `hosts`, absent from `containersettings`) likewise
dies with an AttributeError (at `containerconfig.container_name` in the
progress description, before any effect), never with a lookup error. -/
theorem C6_lookup_guard_is_broken :
    cli_backup_db "doesnotexist" "/root" "2026-10-12" "abcdefghij" exAllOk =
      ([], some (PyError.attributeError
        "NoneType object has no attribute run_backup_db")) ∧
    (∀ msg, cli_backup_db "doesnotexist" "/root" "2026-10-12" "abcdefghij"
        exAllOk ≠ ([], some (PyError.keyError msg))) ∧
    cli_backup_db "" "/root" "2026-10-12" "abcdefghij" exAllOk =
      ([], some (PyError.keyError "Host not found")) ∧
    cli_build_container_cli "dird" "/root" "2026-10-12" "abcdefghij"
        (fun _ => (0, "")) =
      ([], some (PyError.attributeError
        "NoneType object has no attribute container_name")) ∧
    (∀ msg, cli_build_container_cli "dird" "/root" "2026-10-12" "abcdefghij"
        (fun _ => (0, "")) ≠ ([], some (PyError.keyError msg))) := by
  have h1 : cli_backup_db "doesnotexist" "/root" "2026-10-12" "abcdefghij"
      exAllOk =
      ([], some (PyError.attributeError
        "NoneType object has no attribute run_backup_db")) := by decide
  have h4 : cli_build_container_cli "dird" "/root" "2026-10-12" "abcdefghij"
      (fun _ => (0, "")) =
      ([], some (PyError.attributeError
        "NoneType object has no attribute container_name")) := by decide
  refine ⟨h1, ?_, by decide, h4, ?_⟩
  · intro msg h
    rw [h1] at h
    simp at h
  · intro msg h
    rw [h4] at h
    simp at h

/-- Witness for C6's negative conjunct at the message the source would
have raised. -/
theorem C6_lookup_guard_is_broken_witness :
    cli_backup_db "doesnotexist" "/root" "2026-10-12" "abcdefghij" exAllOk ≠
      ([], some (PyError.keyError "Host not found")) :=
  (C6_lookup_guard_is_broken).2.1 "Host not found"

end RdiffDb
